import Mathlib

/-!
Verification development for the BeagleBone DLP2000 image client
(`beagle_transfer.py`).  The Python class `BeagleBoneImageClient` is
shallowly embedded: pixel buffers are lists of rows of natural numbers,
remote session state is threaded explicitly, and every remote side effect
is recorded as an event in a trace.  Python floats (the radius and pixel
pitch) are modelled by exact rationals.
-/

/-- Python `int(q)`: truncation of a rational toward zero. -/
def pyTrunc (q : ℚ) : ℤ := if 0 ≤ q then ⌊q⌋ else -⌊-q⌋

/-- Python `str.rstrip(c)` for a single character: drop all trailing copies of `c`. -/
def pyRstrip (s : String) (c : Char) : String :=
  ⟨(s.data.reverse.dropWhile (fun d => d = c)).reverse⟩

/-- Python `str.strip()`: drop leading and trailing whitespace. -/
def pyStrip (l : List Char) : List Char :=
  ((l.dropWhile Char.isWhitespace).reverse.dropWhile Char.isWhitespace).reverse

/-- Helper for Python `str.split()`: returns the word in progress at the head
of the input together with the remaining words. -/
def pySplitAux : List Char → List Char × List (List Char)
  | [] => ([], [])
  | c :: cs =>
    let r := pySplitAux cs
    if c.isWhitespace then ([], if r.1 = [] then r.2 else r.1 :: r.2)
    else (c :: r.1, r.2)

/-- Python `str.split()` with no argument: split on runs of whitespace,
discarding empty fields. -/
def pySplitWs (l : List Char) : List (List Char) :=
  if (pySplitAux l).1 = [] then (pySplitAux l).2
  else (pySplitAux l).1 :: (pySplitAux l).2

/-- Python `repr` of a shape tuple: `()`, `(5,)`, `(2, 3)`, `(2, 3, 4)`. -/
def pyTupleRepr : List Nat → String
  | [] => "()"
  | [n] => "(" ++ toString n ++ ",)"
  | ns => "(" ++ String.intercalate (", ") (ns.map toString) ++ ")"

/-- Tokens joined by single spaces (used to describe well-formed `ls` output). -/
def joinSpaces : List (List Char) → List Char
  | [] => []
  | [t] => t
  | t :: ts => t ++ ' ' :: joinSpaces ts

/-- The construction-time configuration of `BeagleBoneImageClient.__init__`:
host, credentials, remote directory (normalised by
`remote_path.rstrip("/") + "/"`), DMD width/height, pixel pitch. -/
structure Config where
  host : String
  username : String
  password : String
  remote_path : String
  width : Nat
  height : Nat
  pitch_um : ℚ
deriving DecidableEq

/-- `__init__`: stores the fields, normalising the remote directory path. -/
def initClient (host username password remote_path : String)
    (width height : Nat) (pitch_um : ℚ) : Config :=
  { host := host, username := username, password := password
    remote_path := pyRstrip remote_path '/' ++ "/"
    width := width, height := height, pitch_um := pitch_um }

/-- Mutable remote-session state threaded through the operations:
whether the SSH transport is active, whether the remote directory exists,
and the remote BMP files newest-first (the result of `ls -t`). -/
structure DevState where
  connActive : Bool
  dirExists : Bool
  remoteFiles : List String
deriving DecidableEq

/-- Remote side effects, recorded in traces. -/
inductive Ev where
  | sshConnect
  | warpCursor
  | sftpStat
  | sftpMkdir
  | sftpPut (remote : String)
  | rmLocalTemp
  | execPkill
  | execFeh (path : String)
  | execLs
  | execRmBmp
deriving DecidableEq

/-- Python exceptions raised by the client (including the exceptions of the
libraries it calls: PIL raises a type error or an os error during BMP
serialization, and float division by zero raises `ZeroDivisionError`). -/
inductive Err where
  | typeError (msg : String)
  | valueError (msg : String)
  | fileNotFound (msg : String)
  | runtimeError (msg : String)
  | unknownMaskType (kind : String)
  | osError (msg : String)
  | zeroDivisionError (msg : String)
deriving DecidableEq

/-- `_connect`: a no-op when the transport is active; otherwise opens SSH and
SFTP and warps the cursor (fresh-connection side effect). -/
def connectStep (s : DevState) : DevState × List Ev :=
  if s.connActive then (s, [])
  else ({ s with connActive := true }, [Ev.sshConnect, Ev.warpCursor])

/-- A Python value passed to `send_image`: either a numpy `ndarray` with its
dtype name, shape and (for 2-D arrays) row data, or a non-array value
carrying the name of its Python type. -/
inductive PyObj where
  | arr (dtype : String) (shape : List Nat) (data : List (List Nat))
  | other (typeName : String)
deriving DecidableEq

/-- The size-mismatch message of `send_image`. -/
def size_err_msg (cfg : Config) (w h : Nat) : String :=
  "Image must be exactly " ++ toString cfg.width ++ "x" ++ toString cfg.height ++
    " (got " ++ toString w ++ "x" ++ toString h ++ ")"

/-- The `(w, h) != (self.width, self.height)` check of `send_image`. -/
def checkSize (cfg : Config) (h w : Nat) : Option Err :=
  if (w, h) ≠ (cfg.width, cfg.height) then some (Err.valueError (size_err_msg cfg w h))
  else none

/-- The validation block of `send_image` (lines 89-102): type check, dtype
check, dimensionality check, size check, in source order.  Returns the
exception raised, or `none` when the buffer is accepted. -/
def validate_image (cfg : Config) (img : PyObj) : Option Err :=
  match img with
  | PyObj.other _ => some (Err.typeError ("Input must be a numpy ndarray."))
  | PyObj.arr dtype shape _ =>
    if dtype ≠ "uint8" then
      some (Err.valueError ("Image dtype must be uint8, got " ++ dtype))
    else
      match shape with
      | [h, w, _] => checkSize cfg h w
      | [h, w] => checkSize cfg h w
      | dims => some (Err.valueError ("Invalid image dimensions: " ++ pyTupleRepr dims))

/-- The shape of a numpy array (empty for non-arrays, which never reach the
serialization step because validation raises first). -/
def pyShape : PyObj → List Nat
  | PyObj.arr _ sh _ => sh
  | PyObj.other _ => []

/-- `Image.fromarray(image_array).save(temp_path, BMP)` (line 107):
a 2-D uint8 buffer (mode L) and 3-D buffers with 3 (RGB) or 4 (RGBA)
channels serialize; `fromarray` raises a type error for channel counts it
has no mode for, and the BMP encoder raises an os error for the 2-channel
mode LA.  Shapes that are not 2-D or 3-D never reach this step. -/
def bmpSerialize (shape : List Nat) : Option Err :=
  match shape with
  | [_, _] => none
  | [_, _, c] =>
    if c = 3 ∨ c = 4 then none
    else if c = 2 then some (Err.osError ("cannot write mode LA as BMP"))
    else some (Err.typeError ("Cannot handle this data type"))
  | _ => none

/-- `send_image`: connect, validate, save a temporary BMP named `tmpBase`
(which can itself raise inside PIL, before any SFTP I/O), `stat`/`mkdir`
the remote directory, `put` the file, remove the temp file, and return the
remote path `remote_path + basename`. -/
def send_image (cfg : Config) (s : DevState) (tmpBase : String) (img : PyObj) :
    Except Err String × DevState × List Ev :=
  let c := connectStep s
  match validate_image cfg img with
  | some e => (Except.error e, c.1, c.2)
  | none =>
    match bmpSerialize (pyShape img) with
    | some e => (Except.error e, c.1, c.2)
    | none =>
      let statEvs := if c.1.dirExists then [Ev.sftpStat] else [Ev.sftpStat, Ev.sftpMkdir]
      let remote := cfg.remote_path ++ tmpBase
      (Except.ok remote,
        { c.1 with dirExists := true, remoteFiles := remote :: c.1.remoteFiles },
        c.2 ++ statEvs ++ [Ev.sftpPut remote, Ev.rmLocalTemp])

/-- `np.full((h, w), v, dtype=np.uint8)` as rows of naturals. -/
def npFull (h w v : Nat) : List (List Nat) :=
  (List.range h).map fun _ => (List.range w).map fun _ => v

/-- Read pixel `(y, x)` of a buffer (row-major, 0 outside). -/
def pixelAt (b : List (List Nat)) (y x : Nat) : Nat := (b.getD y []).getD x 0

/-- Python `range(0, stop, step)` for positive `step`. -/
def pyRangeStep (stop step : Nat) : List Nat :=
  (List.range ((stop + step - 1) / step)).map (fun i => step * i)

/-- One slice assignment `arr[y0:y0+32, x0:x0+32] = 255` as a function update. -/
def blockSet (y0 x0 : Nat) (b : Nat → Nat → Nat) : Nat → Nat → Nat :=
  fun y x =>
    if y0 ≤ y ∧ y < y0 + 32 ∧ x0 ≤ x ∧ x < x0 + 32 then 255 else b y x

/-- The writes performed by the grid loops: for `y` in `range(0, h, 32)`,
for `x` in `range(0, w, 32)`, when `((x // 32) + (y // 32)) % 2 == 0`. -/
def gridWrites (h w : Nat) : List (Nat × Nat) :=
  (pyRangeStep h 32).flatMap fun y0 =>
    (pyRangeStep w 32).filterMap fun x0 =>
      if (x0 / 32 + y0 / 32) % 2 = 0 then some (y0, x0) else none

/-- The grid pixel function: all writes applied to a zero buffer. -/
def gridFn (h w : Nat) : Nat → Nat → Nat :=
  (gridWrites h w).foldl (fun b p => blockSet p.1 p.2 b) (fun _ _ => 0)

/-- The `"grid"` mask buffer materialised at shape `(h, w)`. -/
def gridArr (h w : Nat) : List (List Nat) :=
  (List.range h).map fun y => (List.range w).map fun x => gridFn h w y x

/-- The `"circle"` mask: zeros with `arr[mask] = 255` where the boolean mask is
`(yy - cy)**2 + (xx - cx)**2 <= r_px**2`, `cy = h // 2`, `cx = w // 2`. -/
def circleArr (h w : Nat) (rpx : ℤ) : List (List Nat) :=
  (List.range h).map fun (y : Nat) => (List.range w).map fun (x : Nat) =>
    if ((y : ℤ) - ((h / 2 : Nat) : ℤ)) ^ 2 + ((x : ℤ) - ((w / 2 : Nat) : ℤ)) ^ 2 ≤ rpx ^ 2
    then 255 else 0

/-- `generate_mask`: white, black, grid, or circle (radius in microns,
converted by `int(radius_um / pitch_um)` — which raises
`ZeroDivisionError` when the configured pitch is zero); unknown kinds and a
missing circle radius raise `ValueError`. -/
def generate_mask (cfg : Config) (mask_type : String) (radius_um : Option ℚ) :
    Except Err (List (List Nat)) :=
  let w := cfg.width
  let h := cfg.height
  if mask_type = "white" then Except.ok (npFull h w 255)
  else if mask_type = "black" then Except.ok (npFull h w 0)
  else if mask_type = "grid" then Except.ok (gridArr h w)
  else if mask_type = "circle" then
    match radius_um with
    | none => Except.error (Err.valueError ("radius_um must be provided for circle mask."))
    | some r =>
      if cfg.pitch_um = 0 then Except.error (Err.zeroDivisionError ("float division by zero"))
      else Except.ok (circleArr h w (pyTrunc (r / cfg.pitch_um)))
  else Except.error (Err.unknownMaskType mask_type)

/-- Number of white (255) pixels in a buffer. -/
def whiteCount (b : List (List Nat)) : Nat :=
  (b.map fun row => row.countP fun v => v == 255).sum

/-- Wrap a generated 2-D buffer as the numpy array `send_image` receives. -/
def maskToNdarray (b : List (List Nat)) : PyObj :=
  PyObj.arr ("uint8") [b.length, (b.headD []).length] b

/-- `_get_latest_remote_list`: parse the decoded stdout of
`ls -t <remote>*.bmp` with `str.split()`. -/
def get_latest_remote_list (stdoutText : String) : List String :=
  (pySplitWs stdoutText.data).map fun l => ⟨l⟩

/-- `show_image`: connect; with no argument list the remote BMPs newest-first
and pick the first (raising `FileNotFoundError` when none); then launch
`feh` on the chosen path. -/
def show_image (_cfg : Config) (s : DevState) (arg : Option String) :
    Except Err Unit × DevState × List Ev :=
  let c := connectStep s
  match arg with
  | none =>
    match c.1.remoteFiles with
    | [] => (Except.error (Err.fileNotFound ("No BMP images found on the BBB.")),
        c.1, c.2 ++ [Ev.execLs])
    | f :: _ => (Except.ok (), c.1, c.2 ++ [Ev.execLs, Ev.execFeh f])
  | some p => (Except.ok (), c.1, c.2 ++ [Ev.execFeh p])

/-- `close_image`: connect and `pkill feh` (errors ignored). -/
def close_image (s : DevState) : DevState × List Ev :=
  let c := connectStep s
  (c.1, c.2 ++ [Ev.execPkill])

/-- `preset_mask`: generate the mask, `send_image` it, `show_image()` with no
argument, and fall off the end — the Python function returns `None`. -/
def preset_mask (cfg : Config) (s : DevState) (tmpBase : String)
    (mask_type : String) (radius_um : Option ℚ) :
    Except Err (Option String) × DevState × List Ev :=
  match generate_mask cfg mask_type radius_um with
  | Except.error e => (Except.error e, s, [])
  | Except.ok mask =>
    match send_image cfg s tmpBase (maskToNdarray mask) with
    | (Except.error e, s1, ev1) => (Except.error e, s1, ev1)
    | (Except.ok _, s1, ev1) =>
      match show_image cfg s1 none with
      | (Except.error e, s2, ev2) => (Except.error e, s2, ev1 ++ ev2)
      | (Except.ok _, s2, ev2) => (Except.ok none, s2, ev1 ++ ev2)

/-- `flush_remote_images`: connect, run the remote recursive delete, and raise
`RuntimeError` carrying the stripped stderr on a nonzero exit status. -/
def flush_remote_images (_cfg : Config) (s : DevState)
    (exitCode : ℤ) (stderrText : String) : Except Err Unit × DevState × List Ev :=
  let c := connectStep s
  if exitCode ≠ 0 then
    (Except.error (Err.runtimeError ("Failed to flush remote images: " ++
        (⟨pyStrip stderrText.data⟩ : String))), c.1, c.2 ++ [Ev.execRmBmp])
  else (Except.ok (), c.1, c.2 ++ [Ev.execRmBmp])

/-- `stop`: `close_image()`, `black_path = preset_mask("black")`,
`show_image(black_path)` — where `black_path` is Python `None`. -/
def stop (cfg : Config) (s : DevState) (tmpBase : String) :
    Except Err Unit × DevState × List Ev :=
  let c := close_image s
  match preset_mask cfg c.1 tmpBase ("black") none with
  | (Except.error e, s2, ev2) => (Except.error e, s2, c.2 ++ ev2)
  | (Except.ok blackPath, s2, ev2) =>
    match show_image cfg s2 blackPath with
    | (r, s3, ev3) => (r, s3, c.2 ++ ev2 ++ ev3)

/-- Is an event the remote fullscreen-display (`feh`) command? -/
def isDisplayEv : Ev → Bool
  | Ev.execFeh _ => true
  | _ => false

/-- Is an event part of upload I/O (directory stat/creation or file transfer)? -/
def isUploadEv : Ev → Bool
  | Ev.sftpStat => true
  | Ev.sftpMkdir => true
  | Ev.sftpPut _ => true
  | _ => false

/-! ## Helper lemmas -/

theorem getD_map_range {α : Type} (n : Nat) (f : Nat → α) (i : Nat) (d : α) (h : i < n) :
    ((List.range n).map f).getD i d = f i := by
  rw [List.getD_eq_getElem?_getD, List.getElem?_map, List.getElem?_range h]
  rfl

theorem pixelAt_build (h w : Nat) (g : Nat → Nat → Nat) (y x : Nat)
    (hy : y < h) (hx : x < w) :
    pixelAt ((List.range h).map fun y => (List.range w).map fun x => g y x) y x = g y x := by
  unfold pixelAt
  rw [getD_map_range h _ y [] hy, getD_map_range w _ x 0 hx]

theorem length_build (h w : Nat) (g : Nat → Nat → Nat) :
    (((List.range h).map fun y => (List.range w).map fun x => g y x).length = h) ∧
    ∀ row ∈ (List.range h).map fun y => (List.range w).map fun x => g y x,
      row.length = w := by
  constructor
  · simp
  · intro row hrow
    simp only [List.mem_map] at hrow
    obtain ⟨y, _, rfl⟩ := hrow
    simp

theorem pyTrunc_neg (q : ℚ) : pyTrunc (-q) = -pyTrunc q := by
  unfold pyTrunc
  rcases lt_trichotomy q 0 with h | h | h
  · rw [if_pos (by linarith), if_neg (by linarith), neg_neg]
  · rw [h]
    simp
  · rw [if_neg (by linarith), if_pos h.le, neg_neg]

theorem pyTrunc_of_nonneg (q : ℚ) (h : 0 ≤ q) : pyTrunc q = ⌊q⌋ := if_pos h

theorem pyTrunc_nonneg (q : ℚ) (h : 0 ≤ q) : 0 ≤ pyTrunc q := by
  rw [pyTrunc_of_nonneg q h]
  exact Int.le_floor.2 (by exact_mod_cast h)

theorem pyTrunc_mono_of_nonneg (a b : ℚ) (ha : 0 ≤ a) (hab : a ≤ b) :
    pyTrunc a ≤ pyTrunc b := by
  rw [pyTrunc_of_nonneg a ha, pyTrunc_of_nonneg b (ha.trans hab)]
  exact Int.floor_mono hab

theorem circleArr_neg (h w : Nat) (k : ℤ) : circleArr h w (-k) = circleArr h w k := by
  unfold circleArr
  simp only [neg_sq]

theorem whiteCount_circleArr_mono (h w : Nat) (k1 k2 : ℤ) (hk : k1 ^ 2 ≤ k2 ^ 2) :
    whiteCount (circleArr h w k1) ≤ whiteCount (circleArr h w k2) := by
  unfold whiteCount circleArr
  rw [List.map_map, List.map_map]
  refine List.sum_le_sum ?_
  intro y _
  simp only [Function.comp_apply]
  rw [List.countP_map, List.countP_map]
  refine List.countP_mono_left ?_
  intro x _ hx
  simp only [Function.comp_apply] at hx ⊢
  by_cases hc : ((y : ℤ) - (h / 2 : Nat)) ^ 2 + ((x : ℤ) - (w / 2 : Nat)) ^ 2 ≤ k1 ^ 2
  · rw [if_pos (hc.trans hk)]
    simp
  · rw [if_neg hc] at hx
    simp at hx

/-! ## Claims C4, C9, C5 -/

theorem generate_circle_ok (cfg : Config) (r : ℚ) (hp : cfg.pitch_um ≠ 0) :
    generate_mask cfg ("circle") (some r) =
      Except.ok (circleArr cfg.height cfg.width (pyTrunc (r / cfg.pitch_um))) := by
  show (if cfg.pitch_um = 0 then
      (Except.error (Err.zeroDivisionError ("float division by zero")) :
        Except Err (List (List Nat)))
    else Except.ok (circleArr cfg.height cfg.width (pyTrunc (r / cfg.pitch_um)))) =
    Except.ok (circleArr cfg.height cfg.width (pyTrunc (r / cfg.pitch_um)))
  rw [if_neg hp]

/-- Claim C4: for every configured width, height and nonzero pitch and every
radius, the circle mask has shape (height, width) and pixel (y, x) equals 255
iff the squared distance to (height / 2, width / 2) is at most the square of
the truncated pixel radius, and 0 otherwise. -/
theorem circle_mask_formula (cfg : Config) (r : ℚ) (hp : cfg.pitch_um ≠ 0)
    (b : List (List Nat))
    (hb : generate_mask cfg ("circle") (some r) = Except.ok b) :
    b.length = cfg.height ∧ (∀ row ∈ b, row.length = cfg.width) ∧
    ∀ y x, y < cfg.height → x < cfg.width →
      pixelAt b y x =
        if ((y : ℤ) - (cfg.height / 2 : Nat)) ^ 2 +
            ((x : ℤ) - (cfg.width / 2 : Nat)) ^ 2 ≤
            (pyTrunc (r / cfg.pitch_um)) ^ 2
        then 255 else 0 := by
  have hb2 := (generate_circle_ok cfg r hp).symm.trans hb
  have hb3 : b = circleArr cfg.height cfg.width (pyTrunc (r / cfg.pitch_um)) :=
    (Except.ok.inj hb2).symm
  subst hb3
  unfold circleArr
  refine ⟨(length_build _ _ _).1, (length_build _ _ _).2, ?_⟩
  intro y x hy hx
  rw [pixelAt_build _ _ _ _ _ hy hx]

/-- Witness for C4 at a concrete 5×5 configuration with pitch 1 and radius 2:
the pixel at distance 1 from the centre is white. -/
theorem circle_mask_formula_witness :
    pixelAt (circleArr 5 5 (pyTrunc ((2 : ℚ) / 1))) 2 3 = 255 := by
  have h := circle_mask_formula (⟨"bbb", "debian", "pw", "/imgs/", 5, 5, 1⟩ : Config) 2
    (by norm_num) (circleArr 5 5 (pyTrunc ((2 : ℚ) / 1)))
    (generate_circle_ok (⟨"bbb", "debian", "pw", "/imgs/", 5, 5, 1⟩ : Config) 2
      (by norm_num))
  have h2 := h.2.2 2 3 (by norm_num) (by norm_num)
  rw [h2]
  show (if ((2 : ℤ) - (5 / 2 : Nat)) ^ 2 + ((3 : ℤ) - (5 / 2 : Nat)) ^ 2 ≤
      (pyTrunc ((2 : ℚ) / 1)) ^ 2 then (255 : Nat) else 0) = 255
  rw [show pyTrunc ((2 : ℚ) / 1) = 2 from by norm_num [pyTrunc]]
  decide

/-- Claim C9: with a nonzero configured pitch the circle call at any radius r
succeeds and returns the disc buffer of the truncated pixel radius, and the
sign of the radius argument is ignored: the call at -r returns exactly the
result of the call at r (this equality also holds at pitch zero, where both
calls raise the same division-by-zero error). -/
theorem circle_mask_radius_sign (cfg : Config) (r : ℚ) :
    (cfg.pitch_um ≠ 0 →
      generate_mask cfg ("circle") (some r) =
        Except.ok (circleArr cfg.height cfg.width (pyTrunc (r / cfg.pitch_um)))) ∧
    generate_mask cfg ("circle") (some (-r)) = generate_mask cfg ("circle") (some r) := by
  constructor
  · exact generate_circle_ok cfg r
  · show (if cfg.pitch_um = 0 then
        (Except.error (Err.zeroDivisionError ("float division by zero")) :
          Except Err (List (List Nat)))
      else Except.ok (circleArr cfg.height cfg.width (pyTrunc (-r / cfg.pitch_um)))) =
      (if cfg.pitch_um = 0 then
        (Except.error (Err.zeroDivisionError ("float division by zero")) :
          Except Err (List (List Nat)))
      else Except.ok (circleArr cfg.height cfg.width (pyTrunc (r / cfg.pitch_um))))
    rw [neg_div, pyTrunc_neg, circleArr_neg]

/-- Witness for C9 at a concrete 5×5 configuration with pitch 1: the circle
call at radius 2 succeeds with the disc buffer. -/
theorem circle_mask_radius_sign_witness :
    generate_mask (⟨"bbb", "debian", "pw", "/imgs/", 5, 5, 1⟩ : Config) ("circle")
      (some 2) = Except.ok (circleArr 5 5 (pyTrunc ((2 : ℚ) / 1))) :=
  (circle_mask_radius_sign (⟨"bbb", "debian", "pw", "/imgs/", 5, 5, 1⟩ : Config) 2).1
    (by norm_num)

/-- Counterexample to Claim C5 as stated: the radius argument is not required
to be nonnegative, and with pitch 1 the radii -2 ≤ 0 give white counts
13 > 1, so the white count is not monotone over all radii. -/
theorem circle_mask_monotone_cex :
    ((-2 : ℚ) ≤ 0) ∧
    generate_mask (⟨"bbb", "debian", "pw", "/imgs/", 5, 5, 1⟩ : Config) "circle"
      (some (-2)) = Except.ok (circleArr 5 5 (pyTrunc ((-2 : ℚ) / 1))) ∧
    generate_mask (⟨"bbb", "debian", "pw", "/imgs/", 5, 5, 1⟩ : Config) "circle"
      (some 0) = Except.ok (circleArr 5 5 (pyTrunc ((0 : ℚ) / 1))) ∧
    whiteCount (circleArr 5 5 (pyTrunc ((-2 : ℚ) / 1))) = 13 ∧
    whiteCount (circleArr 5 5 (pyTrunc ((0 : ℚ) / 1))) = 1 ∧
    ¬ (whiteCount (circleArr 5 5 (pyTrunc ((-2 : ℚ) / 1))) ≤
        whiteCount (circleArr 5 5 (pyTrunc ((0 : ℚ) / 1)))) := by
  have hm2 : pyTrunc ((-2 : ℚ) / 1) = -2 := by norm_num [pyTrunc]
  have hm0 : pyTrunc ((0 : ℚ) / 1) = 0 := by norm_num [pyTrunc]
  refine ⟨by norm_num, generate_circle_ok _ _ (by norm_num),
    generate_circle_ok _ _ (by norm_num), ?_, ?_, ?_⟩
  · rw [hm2]
    decide
  · rw [hm0]
    decide
  · rw [hm2, hm0]
    decide

/-- Claim C5 (amended): with positive pitch, the circle mask at radius 0 is
zero away from the centre pixel; and for 0 ≤ r1 ≤ r2 the white pixel count
of the circle mask at r1 is at most the count at r2. -/
theorem circle_mask_zero_and_monotone (cfg : Config) (hp : 0 < cfg.pitch_um) :
    (∀ b, generate_mask cfg ("circle") (some 0) = Except.ok b →
      ∀ y x, y < cfg.height → x < cfg.width →
        ¬(y = cfg.height / 2 ∧ x = cfg.width / 2) → pixelAt b y x = 0) ∧
    (∀ r1 r2 b1 b2, 0 ≤ r1 → r1 ≤ r2 →
      generate_mask cfg ("circle") (some r1) = Except.ok b1 →
      generate_mask cfg ("circle") (some r2) = Except.ok b2 →
      whiteCount b1 ≤ whiteCount b2) := by
  constructor
  · intro b hb y x hy hx hne
    have hb2 := (generate_circle_ok cfg 0 hp.ne').symm.trans hb
    have hb3 : b = circleArr cfg.height cfg.width (pyTrunc ((0 : ℚ) / cfg.pitch_um)) :=
      (Except.ok.inj hb2).symm
    have h0 : pyTrunc ((0 : ℚ) / cfg.pitch_um) = 0 := by
      rw [zero_div, pyTrunc_of_nonneg _ le_rfl]
      exact Int.floor_zero
    rw [h0] at hb3
    subst hb3
    unfold circleArr
    rw [pixelAt_build _ _ _ _ _ hy hx]
    rw [if_neg]
    intro hle
    have hnn1 : (0 : ℤ) ≤ ((y : ℤ) - ((cfg.height / 2 : Nat) : ℤ)) ^ 2 := sq_nonneg _
    have hnn2 : (0 : ℤ) ≤ ((x : ℤ) - ((cfg.width / 2 : Nat) : ℤ)) ^ 2 := sq_nonneg _
    have hz : (0 : ℤ) ^ 2 = 0 := by norm_num
    rw [hz] at hle
    apply hne
    constructor
    · have hy2 : ((y : ℤ) - ((cfg.height / 2 : Nat) : ℤ)) ^ 2 = 0 := by linarith
      have := sq_eq_zero_iff.1 hy2
      have hcast : (y : ℤ) = ((cfg.height / 2 : Nat) : ℤ) := by linarith
      exact_mod_cast hcast
    · have hx2 : ((x : ℤ) - ((cfg.width / 2 : Nat) : ℤ)) ^ 2 = 0 := by linarith
      have := sq_eq_zero_iff.1 hx2
      have hcast : (x : ℤ) = ((cfg.width / 2 : Nat) : ℤ) := by linarith
      exact_mod_cast hcast
  · intro r1 r2 b1 b2 h0 h12 hb1 hb2
    have hb1' := (generate_circle_ok cfg r1 hp.ne').symm.trans hb1
    have hb2' := (generate_circle_ok cfg r2 hp.ne').symm.trans hb2
    have e1 := (Except.ok.inj hb1').symm
    have e2 := (Except.ok.inj hb2').symm
    subst e1
    subst e2
    have hq1 : 0 ≤ r1 / cfg.pitch_um := div_nonneg h0 hp.le
    have hq12 : r1 / cfg.pitch_um ≤ r2 / cfg.pitch_um :=
      div_le_div_of_nonneg_right h12 hp.le
    have hk1 : 0 ≤ pyTrunc (r1 / cfg.pitch_um) := pyTrunc_nonneg _ hq1
    have hk12 : pyTrunc (r1 / cfg.pitch_um) ≤ pyTrunc (r2 / cfg.pitch_um) :=
      pyTrunc_mono_of_nonneg _ _ hq1 hq12
    exact whiteCount_circleArr_mono _ _ _ _ (pow_le_pow_left₀ hk1 hk12 2)

/-- Witness for the amended C5 at pitch 1, radii 1 ≤ 2 on a 5×5 display. -/
theorem circle_mask_zero_and_monotone_witness :
    whiteCount (circleArr 5 5 (pyTrunc ((1 : ℚ) / 1))) ≤
      whiteCount (circleArr 5 5 (pyTrunc ((2 : ℚ) / 1))) :=
  (circle_mask_zero_and_monotone (⟨"bbb", "debian", "pw", "/imgs/", 5, 5, 1⟩ : Config)
    (by norm_num)).2 1 2 _ _ (by norm_num) (by norm_num)
    (generate_circle_ok (⟨"bbb", "debian", "pw", "/imgs/", 5, 5, 1⟩ : Config) 1
      (by norm_num))
    (generate_circle_ok (⟨"bbb", "debian", "pw", "/imgs/", 5, 5, 1⟩ : Config) 2
      (by norm_num))

/-! ## Claim C6 -/

theorem foldl_blockSet (L : List (Nat × Nat)) (b : Nat → Nat → Nat) (y x : Nat) :
    (L.foldl (fun b p => blockSet p.1 p.2 b) b) y x =
      if ∃ p ∈ L, p.1 ≤ y ∧ y < p.1 + 32 ∧ p.2 ≤ x ∧ x < p.2 + 32 then 255
      else b y x := by
  induction L generalizing b with
  | nil => simp
  | cons q L ih =>
    rw [List.foldl_cons, ih]
    by_cases h1 : ∃ p ∈ L, p.1 ≤ y ∧ y < p.1 + 32 ∧ p.2 ≤ x ∧ x < p.2 + 32
    · rw [if_pos h1, if_pos (by
        obtain ⟨p, hp, hc⟩ := h1
        exact ⟨p, List.mem_cons_of_mem q hp, hc⟩)]
    · rw [if_neg h1]
      unfold blockSet
      by_cases h2 : q.1 ≤ y ∧ y < q.1 + 32 ∧ q.2 ≤ x ∧ x < q.2 + 32
      · rw [if_pos h2, if_pos ⟨q, List.mem_cons_self q L, h2⟩]
      · rw [if_neg h2, if_neg (by
          rintro ⟨p, hp, hc⟩
          rcases List.mem_cons.1 hp with rfl | hp2
          · exact h2 hc
          · exact h1 ⟨p, hp2, hc⟩)]

theorem gridWrites_cover (h w y x : Nat) (hy : y < h) (hx : x < w) :
    (∃ p ∈ gridWrites h w, p.1 ≤ y ∧ y < p.1 + 32 ∧ p.2 ≤ x ∧ x < p.2 + 32) ↔
      (x / 32 + y / 32) % 2 = 0 := by
  constructor
  · rintro ⟨⟨y0, x0⟩, hmem, hc1, hc2, hc3, hc4⟩
    unfold gridWrites at hmem
    rw [List.mem_flatMap] at hmem
    obtain ⟨y0', hy0, hmem2⟩ := hmem
    rw [List.mem_filterMap] at hmem2
    obtain ⟨x0', hx0, heq⟩ := hmem2
    unfold pyRangeStep at hy0 hx0
    rw [List.mem_map] at hy0 hx0
    obtain ⟨i, hi, hieq⟩ := hy0
    obtain ⟨j, hj, hjeq⟩ := hx0
    rw [List.mem_range] at hi hj
    by_cases hpar : (x0' / 32 + y0' / 32) % 2 = 0
    · rw [if_pos hpar] at heq
      have hpp := Option.some.inj heq
      have hyy : y0' = y0 := congrArg Prod.fst hpp
      have hxx : x0' = x0 := congrArg Prod.snd hpp
      subst hyy
      subst hxx
      omega
    · rw [if_neg hpar] at heq
      exact absurd heq (by simp)
  · intro hpar
    refine ⟨(32 * (y / 32), 32 * (x / 32)), ?_, by omega, by omega, by omega, by omega⟩
    unfold gridWrites
    rw [List.mem_flatMap]
    refine ⟨32 * (y / 32), ?_, ?_⟩
    · unfold pyRangeStep
      rw [List.mem_map]
      exact ⟨y / 32, List.mem_range.2 (by omega), rfl⟩
    · rw [List.mem_filterMap]
      refine ⟨32 * (x / 32), ?_, ?_⟩
      · unfold pyRangeStep
        rw [List.mem_map]
        exact ⟨x / 32, List.mem_range.2 (by omega), rfl⟩
      · rw [if_pos (by omega)]

/-- Claim C6: the grid mask has shape (height, width) and pixel (y, x) is 255
iff the parity of its 32-pixel tile coordinates (x / 32) + (y / 32) is even,
0 otherwise; tiles are clipped at the buffer edges automatically. -/
theorem grid_mask_checkerboard (cfg : Config) (b : List (List Nat))
    (hb : generate_mask cfg ("grid") none = Except.ok b) :
    b.length = cfg.height ∧ (∀ row ∈ b, row.length = cfg.width) ∧
    ∀ y x, y < cfg.height → x < cfg.width →
      pixelAt b y x = if (x / 32 + y / 32) % 2 = 0 then 255 else 0 := by
  have hb2 : Except.ok (gridArr cfg.height cfg.width) =
      (Except.ok b : Except Err (List (List Nat))) := hb
  have hb3 : b = gridArr cfg.height cfg.width := (Except.ok.inj hb2).symm
  subst hb3
  unfold gridArr
  refine ⟨(length_build _ _ _).1, (length_build _ _ _).2, ?_⟩
  intro y x hy hx
  rw [pixelAt_build _ _ _ _ _ hy hx]
  unfold gridFn
  rw [foldl_blockSet]
  by_cases hpar : (x / 32 + y / 32) % 2 = 0
  · rw [if_pos ((gridWrites_cover cfg.height cfg.width y x hy hx).2 hpar), if_pos hpar]
  · rw [if_neg (fun hc => hpar ((gridWrites_cover cfg.height cfg.width y x hy hx).1 hc)),
      if_neg hpar]

/-- Witness for C6 on a 64×64 display: tile (0,0) is white, tile (1,0) is
black, tile (1,1) is white. -/
theorem grid_mask_checkerboard_witness :
    pixelAt (gridArr 64 64) 0 0 = 255 ∧ pixelAt (gridArr 64 64) 0 32 = 0 ∧
    pixelAt (gridArr 64 64) 32 32 = 255 := by
  have h := grid_mask_checkerboard (⟨"bbb", "debian", "pw", "/imgs/", 64, 64, 1⟩ : Config)
    (gridArr 64 64) rfl
  refine ⟨?_, ?_, ?_⟩
  · rw [h.2.2 0 0 (by decide) (by decide)]
    decide
  · rw [h.2.2 0 32 (by decide) (by decide)]
    decide
  · rw [h.2.2 32 32 (by decide) (by decide)]
    decide

/-! ## Claims C1 and C3 -/

/-- Counterexample to Claim C1 as stated: on a stale session, `send_image`
refreshes the connection (opening SSH and warping the cursor) before the
validation error for a non-array input is raised. -/
theorem send_image_connects_before_validation_cex :
    (send_image (⟨"bbb", "debian", "pw", "/imgs/", 4, 3, 1⟩ : Config)
        (⟨false, true, []⟩ : DevState) ("t.bmp") (PyObj.other ("list"))).1 =
      Except.error (Err.typeError ("Input must be a numpy ndarray.")) ∧
    Ev.sshConnect ∈ (send_image (⟨"bbb", "debian", "pw", "/imgs/", 4, 3, 1⟩ : Config)
        (⟨false, true, []⟩ : DevState) ("t.bmp") (PyObj.other ("list"))).2.2 :=
  ⟨rfl, by decide⟩

/-- Claim C1 (amended): when validation fails, `send_image` raises exactly the
validation error and performs no upload I/O — no remote directory stat or
creation and no file transfer — and leaves the directory and file state
unchanged; the only events that may occur first are the connection refresh
(SSH connect and cursor warp). -/
theorem send_image_validation_no_upload (cfg : Config) (s : DevState) (tmp : String)
    (img : PyObj) (e : Err) (hv : validate_image cfg img = some e) :
    (send_image cfg s tmp img).1 = Except.error e ∧
    (send_image cfg s tmp img).2.2.countP isUploadEv = 0 ∧
    (send_image cfg s tmp img).2.1.dirExists = s.dirExists ∧
    (send_image cfg s tmp img).2.1.remoteFiles = s.remoteFiles ∧
    ∀ ev ∈ (send_image cfg s tmp img).2.2, ev = Ev.sshConnect ∨ ev = Ev.warpCursor := by
  have hbody : send_image cfg s tmp img =
      (Except.error e, (connectStep s).1, (connectStep s).2) := by
    simp only [send_image, hv]
  rw [hbody]
  unfold connectStep
  by_cases hc : s.connActive
  · rw [if_pos hc]
    exact ⟨rfl, rfl, rfl, rfl, by intro ev hev; simp at hev⟩
  · rw [if_neg hc]
    refine ⟨rfl, rfl, rfl, rfl, ?_⟩
    intro ev hev
    simp only [List.mem_cons, List.not_mem_nil, or_false] at hev
    tauto

/-- Witness for the amended C1: a wrong-dtype buffer on an active session is
rejected with no upload I/O. -/
theorem send_image_validation_no_upload_witness :
    (send_image (⟨"bbb", "debian", "pw", "/imgs/", 4, 3, 1⟩ : Config)
        (⟨true, true, []⟩ : DevState) ("t.bmp")
        (PyObj.arr ("float64") [3, 4] [])).2.2.countP isUploadEv = 0 :=
  (send_image_validation_no_upload (⟨"bbb", "debian", "pw", "/imgs/", 4, 3, 1⟩ : Config)
    (⟨true, true, []⟩ : DevState) ("t.bmp") (PyObj.arr ("float64") [3, 4] [])
    (Err.valueError ("Image dtype must be uint8, got float64")) rfl).2.1

/-- Counterexample to Claim C3 as stated: the type error raised for a
non-array input (here of Python type `list`) carries the fixed message
naming the required type; it does not name the offending type. -/
theorem send_image_type_error_cex :
    (send_image (⟨"bbb", "debian", "pw", "/imgs/", 4, 3, 1⟩ : Config)
        (⟨true, true, []⟩ : DevState) ("t.bmp") (PyObj.other ("list"))).1 =
      Except.error (Err.typeError ("Input must be a numpy ndarray.")) ∧
    ¬ (("list").data <:+: ("Input must be a numpy ndarray.").data) :=
  ⟨rfl, by decide⟩

theorem countP_upload_connectStep (s : DevState) :
    (connectStep s).2.countP isUploadEv = 0 := by
  unfold connectStep
  by_cases hc : s.connActive
  · rw [if_pos hc]
    rfl
  · rw [if_neg hc]
    rfl

/-- Claim C3 (amended): the error taxonomy of `send_image` — a non-array
input raises a type error with the fixed message naming the required type; a
wrong dtype raises a value error naming the actual dtype; a shape that is
neither 2-D nor 3-D raises a value error containing the offending shape
tuple; a 2-D or 3-D shape whose first two axes differ from (height, width)
raises a value error containing the offending dimensions; every uint8 array
shaped (height, width) or (height, width, c) with c either 3 or 4 is
accepted, returning a path under the configured remote directory; and a
correctly sized 3-D array with any other channel count passes validation but
raises inside the BMP serialization step, before any upload I/O. -/
theorem send_image_error_taxonomy (cfg : Config) :
    (∀ ty : String, validate_image cfg (PyObj.other ty) =
        some (Err.typeError ("Input must be a numpy ndarray."))) ∧
    (∀ dt sh da, dt ≠ "uint8" →
        ∃ m, validate_image cfg (PyObj.arr dt sh da) = some (Err.valueError m) ∧
          dt.data <:+: m.data) ∧
    (∀ sh da, sh.length ≠ 2 → sh.length ≠ 3 →
        ∃ m, validate_image cfg (PyObj.arr ("uint8") sh da) =
          some (Err.valueError m) ∧ (pyTupleRepr sh).data <:+: m.data) ∧
    (∀ h w c da, (w, h) ≠ (cfg.width, cfg.height) →
        (∃ m, validate_image cfg (PyObj.arr ("uint8") [h, w] da) =
            some (Err.valueError m) ∧
          (toString w ++ "x" ++ toString h).data <:+: m.data) ∧
        (∃ m, validate_image cfg (PyObj.arr ("uint8") [h, w, c] da) =
            some (Err.valueError m) ∧
          (toString w ++ "x" ++ toString h).data <:+: m.data)) ∧
    (∀ sh da s tmp,
        (sh = [cfg.height, cfg.width] ∨
          ∃ c, (c = 3 ∨ c = 4) ∧ sh = [cfg.height, cfg.width, c]) →
        (send_image cfg s tmp (PyObj.arr ("uint8") sh da)).1 =
          Except.ok (cfg.remote_path ++ tmp) ∧
        cfg.remote_path.data <+: (cfg.remote_path ++ tmp).data) ∧
    (∀ c da s tmp, c ≠ 3 → c ≠ 4 →
        ∃ e, (send_image cfg s tmp
            (PyObj.arr ("uint8") [cfg.height, cfg.width, c] da)).1 =
          Except.error e ∧
        (send_image cfg s tmp
            (PyObj.arr ("uint8") [cfg.height, cfg.width, c] da)).2.2.countP
          isUploadEv = 0) := by
  have hsz : ∀ h w, (w, h) ≠ (cfg.width, cfg.height) →
      ∃ m, checkSize cfg h w = some (Err.valueError m) ∧
        (toString w ++ "x" ++ toString h).data <:+: m.data := by
    intro h w hne
    refine ⟨size_err_msg cfg w h, ?_, ?_⟩
    · unfold checkSize
      rw [if_pos hne]
    · refine ⟨("Image must be exactly " ++ toString cfg.width ++ "x" ++
        toString cfg.height ++ " (got ").data, (")").data, ?_⟩
      simp [size_err_msg, String.data_append, List.append_assoc]
  have hv3 : ∀ c da, validate_image cfg
      (PyObj.arr ("uint8") [cfg.height, cfg.width, c] da) = none := by
    intro c da
    have heq : validate_image cfg (PyObj.arr ("uint8") [cfg.height, cfg.width, c] da) =
        checkSize cfg cfg.height cfg.width := rfl
    rw [heq]
    unfold checkSize
    rw [if_neg (by simp)]
  refine ⟨fun ty => rfl, ?_, ?_, ?_, ?_, ?_⟩
  · intro dt sh da hdt
    refine ⟨"Image dtype must be uint8, got " ++ dt, ?_, ?_⟩
    · simp only [validate_image]
      rw [if_pos hdt]
    · exact ⟨("Image dtype must be uint8, got ").data, [], by
        simp [String.data_append]⟩
  · intro sh da h2 h3
    have hinf : ∀ dims : List Nat, (pyTupleRepr dims).data <:+:
        ("Invalid image dimensions: " ++ pyTupleRepr dims).data :=
      fun dims => ⟨("Invalid image dimensions: ").data, [], by
        simp [String.data_append]⟩
    match sh, h2, h3 with
    | [], _, _ => exact ⟨_, rfl, hinf []⟩
    | [a], _, _ => exact ⟨_, rfl, hinf [a]⟩
    | [a, b], h2, _ => exact absurd rfl h2
    | [a, b, c], _, h3 => exact absurd rfl h3
    | a :: b :: c :: d :: t, _, _ => exact ⟨_, rfl, hinf (a :: b :: c :: d :: t)⟩
  · intro h w c da hne
    obtain ⟨m, hm, hinf⟩ := hsz h w hne
    constructor
    · refine ⟨m, ?_, hinf⟩
      have heq : validate_image cfg (PyObj.arr ("uint8") [h, w] da) =
          checkSize cfg h w := rfl
      rw [heq, hm]
    · refine ⟨m, ?_, hinf⟩
      have heq : validate_image cfg (PyObj.arr ("uint8") [h, w, c] da) =
          checkSize cfg h w := rfl
      rw [heq, hm]
  · intro sh da s tmp hsh
    have hvalid : validate_image cfg (PyObj.arr ("uint8") sh da) = none := by
      rcases hsh with rfl | ⟨c, _, rfl⟩
      · have heq : validate_image cfg (PyObj.arr ("uint8") [cfg.height, cfg.width] da) =
            checkSize cfg cfg.height cfg.width := rfl
        rw [heq]
        unfold checkSize
        rw [if_neg (by simp)]
      · exact hv3 c da
    have hser : bmpSerialize sh = none := by
      rcases hsh with rfl | ⟨c, hc, rfl⟩
      · rfl
      · show (if c = 3 ∨ c = 4 then (none : Option Err)
            else if c = 2 then some (Err.osError ("cannot write mode LA as BMP"))
            else some (Err.typeError ("Cannot handle this data type"))) = none
        rw [if_pos hc]
    constructor
    · simp only [send_image, hvalid, pyShape, hser]
    · exact ⟨tmp.data, by simp [String.data_append]⟩
  · intro c da s tmp h3 h4
    have hser : ∃ e, bmpSerialize [cfg.height, cfg.width, c] = some e := by
      have hred : bmpSerialize [cfg.height, cfg.width, c] =
          if c = 3 ∨ c = 4 then (none : Option Err)
          else if c = 2 then some (Err.osError ("cannot write mode LA as BMP"))
          else some (Err.typeError ("Cannot handle this data type")) := rfl
      rw [hred, if_neg (by tauto)]
      by_cases hc2 : c = 2
      · rw [if_pos hc2]
        exact ⟨_, rfl⟩
      · rw [if_neg hc2]
        exact ⟨_, rfl⟩
    obtain ⟨e, he⟩ := hser
    refine ⟨e, ?_, ?_⟩
    · simp only [send_image, hv3 c da, pyShape, he]
    · simp only [send_image, hv3 c da, pyShape, he]
      exact countP_upload_connectStep s

/-- Witness for the amended C3: a valid 3×4 uint8 buffer is accepted and
lands under the remote directory. -/
theorem send_image_error_taxonomy_witness :
    (send_image (⟨"bbb", "debian", "pw", "/imgs/", 4, 3, 1⟩ : Config)
        (⟨true, true, []⟩ : DevState) ("t.bmp")
        (PyObj.arr ("uint8") [3, 4] [])).1 = Except.ok ("/imgs/t.bmp") := by
  have h := (send_image_error_taxonomy
    (⟨"bbb", "debian", "pw", "/imgs/", 4, 3, 1⟩ : Config)).2.2.2.2.1 [3, 4] []
    (⟨true, true, []⟩ : DevState) ("t.bmp") (Or.inl rfl)
  exact h.1

/-! ## Claim C2 -/

/-- Claim C2 (code bug): a single `stop()` call issues the remote
fullscreen-display command twice, not once — once from inside `preset_mask`
(which itself calls `show_image()`), and once from the final
`show_image(black_path)` of `stop`, where `black_path` is Python `None` because
`preset_mask` falls off the end despite its docstring promising the remote
path.  Both commands resolve to the freshly uploaded all-black buffer. -/
theorem stop_issues_two_display_commands :
    (stop (⟨"bbb", "debian", "pw", "/imgs/", 4, 3, 1⟩ : Config)
        (⟨true, true, []⟩ : DevState) ("bbb_img_t.bmp")).1 = Except.ok () ∧
    (stop (⟨"bbb", "debian", "pw", "/imgs/", 4, 3, 1⟩ : Config)
        (⟨true, true, []⟩ : DevState) ("bbb_img_t.bmp")).2.2.filter isDisplayEv =
      [Ev.execFeh ("/imgs/bbb_img_t.bmp"), Ev.execFeh ("/imgs/bbb_img_t.bmp")] ∧
    (stop (⟨"bbb", "debian", "pw", "/imgs/", 4, 3, 1⟩ : Config)
        (⟨true, true, []⟩ : DevState) ("bbb_img_t.bmp")).2.2.countP isDisplayEv = 2 :=
  ⟨rfl, by decide, by decide⟩

/-! ## Claim C7 -/

theorem data_mk (l : List Char) : (⟨l⟩ : String).data = l := rfl

theorem pySplitAux_word (t : List Char) (l : List Char)
    (ht : ∀ c ∈ t, c.isWhitespace = false) :
    pySplitAux (t ++ l) = (t ++ (pySplitAux l).1, (pySplitAux l).2) := by
  induction t with
  | nil => simp
  | cons c cs ih =>
    have hc : c.isWhitespace = false := ht c (List.mem_cons_self c cs)
    have ih2 := ih (fun d hd => ht d (List.mem_cons_of_mem c hd))
    simp only [List.cons_append, pySplitAux, hc]
    simp
    exact ⟨by rw [ih2], by rw [ih2]⟩

theorem pySplitAux_space (l : List Char) :
    pySplitAux (' ' :: l) = ([], pySplitWs l) := rfl

theorem pySplitWs_joinSpaces (toks : List (List Char))
    (h : ∀ t ∈ toks, t ≠ [] ∧ ∀ c ∈ t, c.isWhitespace = false) :
    pySplitWs (joinSpaces toks) = toks := by
  induction toks with
  | nil => rfl
  | cons t ts ih =>
    have hhead := h t (List.mem_cons_self t ts)
    have htail : ∀ u ∈ ts, u ≠ [] ∧ ∀ c ∈ u, c.isWhitespace = false :=
      fun u hu => h u (List.mem_cons_of_mem t hu)
    cases ts with
    | nil =>
      show pySplitWs t = [t]
      have hword := pySplitAux_word t [] hhead.2
      rw [List.append_nil] at hword
      unfold pySplitWs
      rw [hword]
      simp [hhead.1]
      exact ⟨rfl, rfl⟩
    | cons u us =>
      show pySplitWs (t ++ ' ' :: joinSpaces (u :: us)) = t :: u :: us
      have hword := pySplitAux_word t (' ' :: joinSpaces (u :: us)) hhead.2
      unfold pySplitWs
      rw [hword, pySplitAux_space]
      simp only [List.append_nil]
      rw [if_neg hhead.1]
      rw [ih htail]

/-- Claim C7: the remote-listing parser splits the remote command output on
whitespace, preserving order: empty output parses to the empty sequence,
"a.bmp b.bmp" parses to exactly those two paths in order, and any sequence
of nonempty whitespace-free tokens joined by single spaces parses back to
itself. -/
theorem list_remote_parsing :
    get_latest_remote_list ("") = [] ∧
    get_latest_remote_list ("a.bmp b.bmp") = [("a.bmp" : String), ("b.bmp")] ∧
    ∀ toks : List (List Char),
      (∀ t ∈ toks, t ≠ [] ∧ ∀ c ∈ t, c.isWhitespace = false) →
      get_latest_remote_list (⟨joinSpaces toks⟩ : String) =
        toks.map fun t => (⟨t⟩ : String) := by
  refine ⟨rfl, by decide, ?_⟩
  intro toks h
  unfold get_latest_remote_list
  rw [data_mk, pySplitWs_joinSpaces toks h]

/-- Witness for C7: the two tokens x and y joined by a space parse back to
the paths x and y in order. -/
theorem list_remote_parsing_witness :
    get_latest_remote_list (⟨joinSpaces [['x'], ['y']]⟩ : String) =
      [("x" : String), ("y")] := by
  have h := list_remote_parsing.2.2 [['x'], ['y']] (by decide)
  rw [h]
  decide

/-! ## Claim C8 -/

/-- Counterexample to Claim C8 as stated: the error message carries the
stderr text only after Python `.strip()`, so stderr text with surrounding
whitespace (here a leading and a trailing space) is not contained verbatim
in the message. -/
theorem flush_stderr_stripped_cex :
    (flush_remote_images (⟨"bbb", "debian", "pw", "/imgs/", 4, 3, 1⟩ : Config)
        (⟨true, true, []⟩ : DevState) 1 (" boom ")).1 =
      Except.error (Err.runtimeError ("Failed to flush remote images: " ++
        (⟨pyStrip (" boom ").data⟩ : String))) ∧
    ("Failed to flush remote images: " ++ (⟨pyStrip (" boom ").data⟩ : String)) =
      ("Failed to flush remote images: boom") ∧
    ¬ ((" boom ").data <:+: ("Failed to flush remote images: boom").data) :=
  ⟨rfl, by decide, by decide⟩

/-- Claim C8 (amended): `flush_remote_images` returns normally iff the remote
exit status is zero; on a nonzero status it raises a runtime error whose
message contains the stderr text stripped of leading and trailing
whitespace. -/
theorem flush_error_iff_nonzero (cfg : Config) (s : DevState) (ec : ℤ)
    (errText : String) :
    ((flush_remote_images cfg s ec errText).1 = Except.ok () ↔ ec = 0) ∧
    (ec ≠ 0 →
      (flush_remote_images cfg s ec errText).1 =
        Except.error (Err.runtimeError ("Failed to flush remote images: " ++
          (⟨pyStrip errText.data⟩ : String))) ∧
      pyStrip errText.data <:+: ("Failed to flush remote images: " ++
        (⟨pyStrip errText.data⟩ : String)).data) := by
  have hsel : (flush_remote_images cfg s ec errText).1 =
      if ec ≠ 0 then
        Except.error (Err.runtimeError ("Failed to flush remote images: " ++
          (⟨pyStrip errText.data⟩ : String)))
      else Except.ok () := by
    simp only [flush_remote_images]
    by_cases hec : ec ≠ 0
    · rw [if_pos hec, if_pos hec]
    · rw [if_neg hec, if_neg hec]
  rw [hsel]
  constructor
  · by_cases hec : ec ≠ 0
    · rw [if_pos hec]
      exact ⟨fun h => Except.noConfusion h, fun h => absurd h hec⟩
    · rw [if_neg hec]
      push_neg at hec
      exact ⟨fun _ => hec, fun _ => rfl⟩
  · intro hec
    rw [if_pos hec]
    refine ⟨rfl, ?_⟩
    exact ⟨("Failed to flush remote images: ").data, [], by
      simp [String.data_append, data_mk]⟩

/-- Witness for the amended C8: exit status 1 with stderr boom raises the
runtime error carrying boom. -/
theorem flush_error_iff_nonzero_witness :
    (flush_remote_images (⟨"bbb", "debian", "pw", "/imgs/", 4, 3, 1⟩ : Config)
        (⟨true, true, []⟩ : DevState) 1 ("boom")).1 =
      Except.error (Err.runtimeError ("Failed to flush remote images: " ++
        (⟨pyStrip ("boom").data⟩ : String))) :=
  ((flush_error_iff_nonzero (⟨"bbb", "debian", "pw", "/imgs/", 4, 3, 1⟩ : Config)
    (⟨true, true, []⟩ : DevState) 1 ("boom")).2 (by norm_num)).1

/-! ## Claim C10 -/

theorem dropWhile_head_not (p : Char → Bool) (l : List Char) (a : Char)
    (h : (l.dropWhile p).head? = some a) : p a = false := by
  have hh := List.head?_dropWhile_not p l
  rw [h] at hh
  exact hh

theorem rstrip_no_double_slash (l : List Char) :
    ¬ (['/', '/'] <:+ (l.dropWhile (fun d => d = '/')).reverse ++ ['/']) := by
  intro hsuf
  obtain ⟨pre, hpre⟩ := hsuf
  have h3 := congrArg List.reverse hpre
  rw [List.reverse_append, List.reverse_append, List.reverse_reverse] at h3
  rw [show (['/', '/'] : List Char).reverse = ['/', '/'] from by decide] at h3
  rw [show (['/'] : List Char).reverse = ['/'] from by decide] at h3
  have h4 : (l.dropWhile (fun d => d = '/')).head? = some '/' := by
    have h5 : ('/' : Char) :: ('/' :: pre.reverse) =
        '/' :: l.dropWhile (fun d => d = '/') := h3
    have h6 := (List.cons.inj h5).2
    rw [← h6]
    rfl
  have h7 := dropWhile_head_not _ _ _ h4
  simp at h7

/-- Claim C10: the constructor stores the remote directory path ending in
exactly one slash — all caller-supplied trailing slashes are stripped and a
single one re-appended — and `send_image` forms every uploaded remote path
as this normalised directory string followed directly by the file
basename. -/
theorem remote_path_normalized :
    (∀ host user pw rp : String, ∀ wd ht : Nat, ∀ p : ℚ,
      (initClient host user pw rp wd ht p).remote_path = pyRstrip rp '/' ++ "/" ∧
      ((initClient host user pw rp wd ht p).remote_path.data.getLast? = some '/') ∧
      ¬ (['/', '/'] <:+ (initClient host user pw rp wd ht p).remote_path.data)) ∧
    (∀ cfg s tmp img r, (send_image cfg s tmp img).1 = Except.ok r →
      r = cfg.remote_path ++ tmp ∧ cfg.remote_path.data <+: r.data) := by
  constructor
  · intro host user pw rp wd ht p
    refine ⟨rfl, ?_, ?_⟩
    · show ((pyRstrip rp '/' ++ "/").data.getLast? = some '/')
      rw [String.data_append]
      show ((rp.data.reverse.dropWhile (fun d => d = '/')).reverse ++
        ['/']).getLast? = some '/'
      rw [List.getLast?_concat]
    · show ¬ (['/', '/'] <:+ (pyRstrip rp '/' ++ "/").data)
      rw [String.data_append]
      exact rstrip_no_double_slash rp.data.reverse
  · intro cfg s tmp img r hok
    have hv : validate_image cfg img = none := by
      cases hvi : validate_image cfg img with
      | none => rfl
      | some e =>
        have : (send_image cfg s tmp img).1 = Except.error e := by
          simp only [send_image, hvi]
        rw [hok] at this
        exact Except.noConfusion this
    have hser : bmpSerialize (pyShape img) = none := by
      cases hbs : bmpSerialize (pyShape img) with
      | none => rfl
      | some e =>
        have : (send_image cfg s tmp img).1 = Except.error e := by
          simp only [send_image, hv, hbs]
        rw [hok] at this
        exact Except.noConfusion this
    have hr : (send_image cfg s tmp img).1 = Except.ok (cfg.remote_path ++ tmp) := by
      simp only [send_image, hv, hser]
    rw [hok] at hr
    have hre : r = cfg.remote_path ++ tmp := Except.ok.inj hr
    exact ⟨hre, by rw [hre, String.data_append]; exact ⟨tmp.data, rfl⟩⟩

/-- Witness for C10: a concrete upload of t.bmp lands directly under the
normalised remote directory. -/
theorem remote_path_normalized_witness :
    ("/imgs/" : String).data <+: ("/imgs/t.bmp" : String).data := by
  have h := remote_path_normalized.2 (⟨"bbb", "debian", "pw", "/imgs/", 4, 3, 1⟩ : Config)
    (⟨true, true, []⟩ : DevState) ("t.bmp") (PyObj.arr ("uint8") [3, 4] [])
    ("/imgs/t.bmp") rfl
  exact h.2
